import Mathlib

/-!
Verification of the two CLI scripts of the binary-futures-bot repository
(`src/limit_orders.py` and `src/market_orders.py`) against their
specification.  The Python code is shallowly embedded: Python `float`
values are modelled by the inductive type `PyFloat` (finite values as
exact rationals, plus the non-finite values `inf`, `-inf` and `nan`),
Python's builtin `float()` string conversion by `floatOfString`, the
random sources by explicit seed parameters (CPython's `random.random()`
produces `k / 2^53` for a uniformly chosen 53-bit `k`, which
`random_random` mirrors), and the `argparse`-driven `main` entry points
by total functions from the positional-argument list to a `MainResult`.
-/

/-- Model of a CPython `float` value: a finite value (as an exact
rational), positive infinity, negative infinity, or NaN. -/
inductive PyFloat where
  | finite (q : ℚ)
  | inf
  | negInf
  | nan
deriving DecidableEq, Repr

/-- Python's `x <= 0` comparison on a float `x`.  Comparisons against
NaN are always false in IEEE-754 semantics, which Python follows. -/
def PyFloat.leZero : PyFloat → Bool
  | .finite q => q ≤ 0
  | .inf => false
  | .negInf => true
  | .nan => false

/-- Python's `x > 0` comparison on a float `x` (false for NaN). -/
def PyFloat.gtZero : PyFloat → Bool
  | .finite q => 0 < q
  | .inf => true
  | .negInf => false
  | .nan => false

/-- The whitespace characters stripped by Python's `str.strip` and by
`float()` (ASCII subset). -/
def isPySpace (c : Char) : Bool :=
  c = ' ' || c = '\t' || c = '\n' || c = '\r' || c = '\x0b' || c = '\x0c'

/-- Model of Python's `str.strip()`: remove leading and trailing
whitespace. -/
def pyStripList (cs : List Char) : List Char :=
  ((cs.dropWhile isPySpace).reverse.dropWhile isPySpace).reverse

/-- Model of Python's `str.strip()` on strings. -/
def pyStrip (s : String) : String :=
  ⟨pyStripList s.data⟩

/-- Model of Python's `str.upper()` (ASCII subset). -/
def pyUpper (s : String) : String :=
  ⟨s.data.map Char.toUpper⟩

/-- Consume an optional leading sign; returns whether the value is
negated together with the remaining characters. -/
def parseSign : List Char → Bool × List Char
  | '+' :: rest => (false, rest)
  | '-' :: rest => (true, rest)
  | cs => (false, cs)

/-- Numeric value of a digit string (most significant digit first). -/
def digitsVal (cs : List Char) : ℕ :=
  cs.foldl (fun acc c => 10 * acc + (c.toNat - '0'.toNat)) 0

/-- Parse the optional exponent part of a Python float literal: either
nothing, or `e`/`E` followed by an optional sign and at least one
digit, consuming the whole remaining input. -/
def parseExp : List Char → Option ℤ
  | [] => some 0
  | c :: rest =>
    if c = 'e' ∨ c = 'E' then
      let (neg, rest2) := parseSign rest
      let ds := rest2.takeWhile Char.isDigit
      let rest3 := rest2.dropWhile Char.isDigit
      if ds.isEmpty ∨ ¬ rest3.isEmpty then none
      else some (if neg then -(digitsVal ds : ℤ) else (digitsVal ds : ℤ))
    else none

/-- Ten to an integer power, as a rational (kept kernel-computable by
working with natural-number powers). -/
def pow10 (e : ℤ) : ℚ :=
  if 0 ≤ e then ((10 ^ e.toNat : ℕ) : ℚ) else 1 / ((10 ^ (-e).toNat : ℕ) : ℚ)

/-- Parse an unsigned decimal float literal (digits, optional point and
fraction digits, optional exponent), consuming the whole input;
requires at least one mantissa digit. -/
def parseDecimal (cs : List Char) : Option ℚ :=
  let ip := cs.takeWhile Char.isDigit
  let rest1 := cs.dropWhile Char.isDigit
  match rest1 with
  | '.' :: rest2 =>
    let fp := rest2.takeWhile Char.isDigit
    let rest3 := rest2.dropWhile Char.isDigit
    if ip.isEmpty ∧ fp.isEmpty then none
    else
      match parseExp rest3 with
      | none => none
      | some e =>
        some (((digitsVal ip : ℚ) + (digitsVal fp : ℚ) / ((10 ^ fp.length : ℕ) : ℚ)) * pow10 e)
  | rest2 =>
    if ip.isEmpty then none
    else
      match parseExp rest2 with
      | none => none
      | some e => some ((digitsVal ip : ℚ) * pow10 e)

/-- Model of Python's builtin `float(string)` conversion: strip
surrounding whitespace, accept an optional sign followed by
`inf`/`infinity`/`nan` (case-insensitively) or a decimal literal;
return `none` where CPython raises `ValueError`. -/
def floatOfString (s : String) : Option PyFloat :=
  let cs := pyStripList s.data
  let (neg, body) := parseSign cs
  let lb := body.map Char.toLower
  if lb = "inf".data ∨ lb = "infinity".data then
    some (if neg then .negInf else .inf)
  else if lb = "nan".data then
    some .nan
  else
    (parseDecimal body).map (fun q => .finite (if neg then -q else q))

/-- Round a rational to the nearest integer, ties to even — the
rounding mode of Python's builtin `round`. -/
def roundHalfEven (q : ℚ) : ℤ :=
  let n := q.floor
  let frac := q - (n : ℚ)
  if frac < 1 / 2 then n
  else if frac = 1 / 2 then (if n % 2 = 0 then n else n + 1)
  else n + 1

/-- Model of Python's `round(x, 2)`: round to two decimal places,
ties to even. -/
def round2 (q : ℚ) : ℚ :=
  (roundHalfEven (q * 100) : ℚ) / 100

/-- Model of CPython's `random.random()`: the generator draws 53
uniform bits `k` and returns `k / 2^53`, a float in `[0, 1)`.  The
seed argument supplies the raw draw. -/
def random_random (k : ℕ) : ℚ :=
  ((k % 2 ^ 53 : ℕ) : ℚ) / ((2 ^ 53 : ℕ) : ℚ)

/-- Model of Python's `random.randint(lo, hi)`: a uniform draw from
the inclusive range `[lo, hi]`, here obtained by reducing the raw
generator output `k` modulo the size of the range. -/
def randint (lo hi k : ℕ) : ℕ :=
  lo + k % (hi - lo + 1)

/-- Result of one CLI invocation: either the order summary was printed
and the process exits 0, or `argparse`'s `parser.error` fired (usage
message on stderr, exit code 2, no summary, the simulator never runs),
or the defensive `except` branch fired (`sys.exit(1)`, no summary). -/
inductive MainResult (α : Type) where
  | summary (record : α)
  | usageError
  | internalError
deriving DecidableEq, Repr

/-- The `try/except` wrapper around order construction and printing in
both scripts' `main`: a successful construction is printed as the
summary; an exception is logged and turns into `sys.exit(1)`. -/
def tryReport {α : Type} (constructed : Except String α) : MainResult α :=
  match constructed with
  | .ok record => .summary record
  | .error _ => .internalError

/-- `VALID_SIDES = {"BUY", "SELL"}` shared by both scripts. -/
def VALID_SIDES : List String := ["BUY", "SELL"]

namespace LimitOrders

/-- `limit_orders.py`, `validate_symbol`: the argument is a string
(`isinstance` always holds in this typed model), `symbol.isalnum()`
(non-empty and every character alphanumeric, per Python semantics),
and `symbol.endswith("USDT")`. -/
def validate_symbol (symbol : String) : Bool :=
  (!symbol.data.isEmpty && symbol.data.all Char.isAlphanum)
    && "USDT".data.isSuffixOf symbol.data

/-- `limit_orders.py`, `validate_quantity`: `float(q_str)`, raising
`ArgumentTypeError` when conversion fails or the value is `<= 0`,
otherwise returning the value. -/
def validate_quantity (q_str : String) : Except String PyFloat :=
  match floatOfString q_str with
  | none => .error "could not convert string to float"
  | some q => if q.leZero then .error "Quantity must be > 0" else .ok q

/-- `limit_orders.py`, `validate_price`: same shape as
`validate_quantity`, applied to the limit price. -/
def validate_price (p_str : String) : Except String PyFloat :=
  match floatOfString p_str with
  | none => .error "could not convert string to float"
  | some p => if p.leZero then .error "Price must be > 0" else .ok p

/-- The dict built by `simulate_place_limit_order`. -/
structure LimitOrderRecord where
  orderId : ℕ
  symbol : String
  side : String
  status : String
  origQty : PyFloat
  price : PyFloat
  transactTime : ℕ
deriving DecidableEq, Repr

/-- `limit_orders.py`, `simulate_place_limit_order`: draw an order id
with `random.randint(10_000_000, 99_999_999)` (raw generator output
`idSeed`) and build the acknowledgement record; `now_ms` supplies the
current epoch-millisecond timestamp. -/
def simulate_place_limit_order (symbol side : String) (quantity price : PyFloat)
    (idSeed : ℕ) (now_ms : ℕ) : LimitOrderRecord :=
  { orderId := randint 10000000 99999999 idSeed
    symbol := symbol
    side := side
    status := "NEW"
    origQty := quantity
    price := price
    transactTime := now_ms }

/-- `limit_orders.py`, `main`: `argparse` demands exactly four
positional arguments (otherwise `parser.error`, modelled by the
catch-all branch); symbol and side are stripped and uppercased;
quantity and price validation failures, a side outside `VALID_SIDES`
and a bad symbol each trigger `parser.error`; then the simulator runs
inside `try/except` and its record is printed. -/
def main (args : List String) (idSeed : ℕ) (now_ms : ℕ) : MainResult LimitOrderRecord :=
  match args with
  | [symbol_arg, side_arg, quantity_arg, price_arg] =>
    let symbol := pyUpper (pyStrip symbol_arg)
    let side := pyUpper (pyStrip side_arg)
    match validate_quantity quantity_arg with
    | .error _ => .usageError
    | .ok quantity =>
      match validate_price price_arg with
      | .error _ => .usageError
      | .ok price =>
        if side ∉ VALID_SIDES then .usageError
        else if !validate_symbol symbol then .usageError
        else tryReport (Except.ok (simulate_place_limit_order symbol side quantity price idSeed now_ms))
  | _ => .usageError

/-- The conditions under which `limit_orders.py`'s `main` passes every
validation: exactly four positional arguments, quantity and price
accepted by their validators, normalized side in `VALID_SIDES`, and
normalized symbol accepted by `validate_symbol`. -/
def argsOk (args : List String) : Prop :=
  ∃ symbol_arg side_arg quantity_arg price_arg,
    args = [symbol_arg, side_arg, quantity_arg, price_arg] ∧
    (validate_quantity quantity_arg).isOk = true ∧
    (validate_price price_arg).isOk = true ∧
    pyUpper (pyStrip side_arg) ∈ VALID_SIDES ∧
    validate_symbol (pyUpper (pyStrip symbol_arg)) = true

end LimitOrders

namespace MarketOrders

/-- `market_orders.py`, `validate_symbol`: textually identical to the
limit script's validator. -/
def validate_symbol (symbol : String) : Bool :=
  (!symbol.data.isEmpty && symbol.data.all Char.isAlphanum)
    && "USDT".data.isSuffixOf symbol.data

/-- `market_orders.py`, `validate_quantity`: textually identical to
the limit script's validator. -/
def validate_quantity (q_str : String) : Except String PyFloat :=
  match floatOfString q_str with
  | none => .error "could not convert string to float"
  | some q => if q.leZero then .error "Quantity must be > 0" else .ok q

/-- The dict built by `simulate_place_market_order`. -/
structure MarketOrderRecord where
  orderId : ℕ
  symbol : String
  side : String
  status : String
  executedQty : PyFloat
  avgPrice : ℚ
  transactTime : ℕ
deriving DecidableEq, Repr

/-- `market_orders.py`, `simulate_place_market_order`: the execution
price is `round(1000 + random.random() * 1000, 2)` (raw generator
output `priceSeed`), the order id comes from
`random.randint(10_000_000, 99_999_999)` (raw output `idSeed`), and
`now_ms` supplies the epoch-millisecond timestamp. -/
def simulate_place_market_order (symbol side : String) (quantity : PyFloat)
    (priceSeed idSeed : ℕ) (now_ms : ℕ) : MarketOrderRecord :=
  { orderId := randint 10000000 99999999 idSeed
    symbol := symbol
    side := side
    status := "FILLED"
    executedQty := quantity
    avgPrice := round2 (1000 + random_random priceSeed * 1000)
    transactTime := now_ms }

/-- `market_orders.py`, `main`: `argparse` demands exactly three
positional arguments; symbol and side are stripped and uppercased;
a quantity validation failure, a side outside `VALID_SIDES` and a bad
symbol each trigger `parser.error`; then the simulator runs inside
`try/except` and its record is printed. -/
def main (args : List String) (priceSeed idSeed : ℕ) (now_ms : ℕ) : MainResult MarketOrderRecord :=
  match args with
  | [symbol_arg, side_arg, quantity_arg] =>
    let symbol := pyUpper (pyStrip symbol_arg)
    let side := pyUpper (pyStrip side_arg)
    match validate_quantity quantity_arg with
    | .error _ => .usageError
    | .ok quantity =>
      if side ∉ VALID_SIDES then .usageError
      else if !validate_symbol symbol then .usageError
      else tryReport (Except.ok (simulate_place_market_order symbol side quantity priceSeed idSeed now_ms))
  | _ => .usageError

/-- The conditions under which `market_orders.py`'s `main` passes
every validation. -/
def argsOk (args : List String) : Prop :=
  ∃ symbol_arg side_arg quantity_arg,
    args = [symbol_arg, side_arg, quantity_arg] ∧
    (validate_quantity quantity_arg).isOk = true ∧
    pyUpper (pyStrip side_arg) ∈ VALID_SIDES ∧
    validate_symbol (pyUpper (pyStrip symbol_arg)) = true

end MarketOrders

section Verification

attribute [local semireducible] Rat.add Rat.mul Rat.inv Rat.sub

/-- A result of `Except` is `ok` exactly when `isOk` holds. -/
lemma except_isOk_iff {ε α : Type} (e : Except ε α) : e.isOk = true ↔ ∃ a, e = .ok a := by
  cases e <;> simp [Except.isOk, Except.toBool]

/-- `roundHalfEven` lands on the floor or the ceiling of its argument. -/
lemma roundHalfEven_bounds (q : ℚ) :
    q.floor ≤ roundHalfEven q ∧ roundHalfEven q ≤ q.floor + 1 := by
  simp only [roundHalfEven]
  split_ifs <;> omega

/-- `round2` keeps a value of `[1000, 2000)` inside `[1000, 2000]`. -/
lemma round2_bounds {x : ℚ} (h1 : 1000 ≤ x) (h2 : x < 2000) :
    1000 ≤ round2 x ∧ round2 x ≤ 2000 := by
  have hfl : (x * 100).floor = ⌊x * 100⌋ := rfl
  have hlo : (100000 : ℤ) ≤ (x * 100).floor := by
    rw [hfl]
    exact Int.le_floor.mpr (by push_cast; linarith)
  have hhi : (x * 100).floor < 200000 := by
    rw [hfl]
    exact Int.floor_lt.mpr (by push_cast; linarith)
  obtain ⟨hb1, hb2⟩ := roundHalfEven_bounds (x * 100)
  unfold round2
  have hc1 : (100000 : ℚ) ≤ (roundHalfEven (x * 100) : ℚ) := by exact_mod_cast le_trans hlo hb1
  have hc2 : (roundHalfEven (x * 100) : ℚ) ≤ 200000 := by
    have : roundHalfEven (x * 100) ≤ 200000 := by omega
    exact_mod_cast this
  constructor <;> linarith

/-- The modelled `random.random()` always lies in `[0, 1)`. -/
lemma random_random_mem (k : ℕ) : 0 ≤ random_random k ∧ random_random k < 1 := by
  unfold random_random
  constructor
  · positivity
  · rw [div_lt_one (by positivity)]
    exact_mod_cast Nat.mod_lt k (by norm_num)

/-- A list with the suffix `"USDT"` is nonempty. -/
lemma usdt_suffix_nonempty {l : List Char} (h : "USDT".data.isSuffixOf l = true) :
    l.isEmpty = false := by
  rw [List.isSuffixOf_iff_suffix] at h
  have hlen := h.length_le
  have h4 : ("USDT".data).length = 4 := rfl
  cases l with
  | nil => simp [h4] at hlen
  | cons a t => rfl

/-- The symbol validator, shared property of both scripts' copies. -/
lemma validate_symbol_spec (t : String) :
    LimitOrders.validate_symbol t = true ↔
      t.data.all Char.isAlphanum = true ∧ "USDT".data.isSuffixOf t.data = true := by
  unfold LimitOrders.validate_symbol
  simp only [Bool.and_eq_true, Bool.not_eq_true']
  constructor
  · rintro ⟨⟨-, h2⟩, h3⟩
    exact ⟨h2, h3⟩
  · rintro ⟨h2, h3⟩
    exact ⟨⟨usdt_suffix_nonempty h3, h2⟩, h3⟩

/-- C4: for every string `symbol`, `validate_symbol symbol` (in either
script) returns true if and only if `symbol` consists only of
alphanumeric characters and ends with the suffix `"USDT"`; it is a
total Boolean predicate, so it never raises. -/
theorem C4_validate_symbol_iff (s : String) :
    (LimitOrders.validate_symbol s = true ↔
      s.data.all Char.isAlphanum = true ∧ "USDT".data.isSuffixOf s.data = true) ∧
    (MarketOrders.validate_symbol s = true ↔
      s.data.all Char.isAlphanum = true ∧ "USDT".data.isSuffixOf s.data = true) :=
  ⟨validate_symbol_spec s, validate_symbol_spec s⟩

/-- C9: the two scripts' `validate_quantity` functions agree on every
input string, and so do their `validate_symbol` functions. -/
theorem C9_validators_extensionally_equal (s : String) :
    LimitOrders.validate_quantity s = MarketOrders.validate_quantity s ∧
    LimitOrders.validate_symbol s = MarketOrders.validate_symbol s :=
  ⟨rfl, rfl⟩

/-- C10: the strings `"inf"` and `"nan"` are accepted by
`validate_quantity` in both scripts: `float("inf")` is positive
infinity, which compares greater than zero, and `float("nan")` is NaN,
for which the comparison `nan <= 0` is false, so neither triggers the
non-positive rejection. -/
theorem C10_inf_nan_accepted :
    LimitOrders.validate_quantity "inf" = .ok PyFloat.inf ∧
    LimitOrders.validate_quantity "nan" = .ok PyFloat.nan ∧
    MarketOrders.validate_quantity "inf" = .ok PyFloat.inf ∧
    MarketOrders.validate_quantity "nan" = .ok PyFloat.nan ∧
    PyFloat.inf.gtZero = true ∧ PyFloat.nan.leZero = false :=
  ⟨rfl, rfl, rfl, rfl, rfl, rfl⟩

/-- C7: both simulators draw `orderId` with
`random.randint(10_000_000, 99_999_999)`, so the field always lies in
the inclusive range `[10000000, 99999999]`, whatever the raw generator
output is. -/
theorem C7_orderId_range (symbol side : String) (quantity price : PyFloat)
    (priceSeed idSeed now_ms : ℕ) :
    (10000000 ≤ (LimitOrders.simulate_place_limit_order symbol side quantity price idSeed now_ms).orderId ∧
      (LimitOrders.simulate_place_limit_order symbol side quantity price idSeed now_ms).orderId ≤ 99999999) ∧
    (10000000 ≤ (MarketOrders.simulate_place_market_order symbol side quantity priceSeed idSeed now_ms).orderId ∧
      (MarketOrders.simulate_place_market_order symbol side quantity priceSeed idSeed now_ms).orderId ≤ 99999999) := by
  have h : ∀ k, 10000000 ≤ randint 10000000 99999999 k ∧ randint 10000000 99999999 k ≤ 99999999 := by
    intro k
    unfold randint
    have := Nat.mod_lt k (show 0 < 99999999 - 10000000 + 1 by norm_num)
    omega
  exact ⟨h idSeed, h idSeed⟩

/-- C5: on valid inputs the limit-order record has status exactly
`"NEW"` and echoes quantity and price unchanged. -/
theorem C5_limit_record_echoes_inputs (symbol side : String) (quantity price : PyFloat)
    (idSeed now_ms : ℕ) (hsym : LimitOrders.validate_symbol symbol = true)
    (hside : side ∈ VALID_SIDES) (hq : quantity.gtZero = true) (hp : price.gtZero = true) :
    (LimitOrders.simulate_place_limit_order symbol side quantity price idSeed now_ms).status = "NEW" ∧
    (LimitOrders.simulate_place_limit_order symbol side quantity price idSeed now_ms).origQty = quantity ∧
    (LimitOrders.simulate_place_limit_order symbol side quantity price idSeed now_ms).price = price :=
  ⟨rfl, rfl, rfl⟩

theorem C5_limit_record_echoes_inputs_witness :
    (LimitOrders.simulate_place_limit_order "BTCUSDT" "SELL" (PyFloat.finite 2) (PyFloat.finite 65000) 0 0).status = "NEW" ∧
    (LimitOrders.simulate_place_limit_order "BTCUSDT" "SELL" (PyFloat.finite 2) (PyFloat.finite 65000) 0 0).origQty = PyFloat.finite 2 ∧
    (LimitOrders.simulate_place_limit_order "BTCUSDT" "SELL" (PyFloat.finite 2) (PyFloat.finite 65000) 0 0).price = PyFloat.finite 65000 :=
  C5_limit_record_echoes_inputs "BTCUSDT" "SELL" (PyFloat.finite 2) (PyFloat.finite 65000) 0 0
    (by decide) (by decide) (by decide) (by decide)

/-- C6: on valid inputs the market-order record has status exactly
`"FILLED"` and echoes the quantity unchanged. -/
theorem C6_market_record_filled (symbol side : String) (quantity : PyFloat)
    (priceSeed idSeed now_ms : ℕ) (hsym : MarketOrders.validate_symbol symbol = true)
    (hside : side ∈ VALID_SIDES) (hq : quantity.gtZero = true) :
    (MarketOrders.simulate_place_market_order symbol side quantity priceSeed idSeed now_ms).status = "FILLED" ∧
    (MarketOrders.simulate_place_market_order symbol side quantity priceSeed idSeed now_ms).executedQty = quantity :=
  ⟨rfl, rfl⟩

theorem C6_market_record_filled_witness :
    (MarketOrders.simulate_place_market_order "BTCUSDT" "BUY" (PyFloat.finite 1) 0 0 0).status = "FILLED" ∧
    (MarketOrders.simulate_place_market_order "BTCUSDT" "BUY" (PyFloat.finite 1) 0 0 0).executedQty = PyFloat.finite 1 :=
  C6_market_record_filled "BTCUSDT" "BUY" (PyFloat.finite 1) 0 0 0 (by decide) (by decide) (by decide)

/-- C1 (counterexample): at the maximal CPython draw
`random.random() = (2^53 - 1) / 2^53` the sample `1000 + r * 1000`
is within `2^-43` of `2000`, and rounding to two decimal places
produces exactly `2000.00`, so `avgPrice` is not strictly below
`2000.00` on every input, refuting the half-open upper bound. -/
theorem C1_avgPrice_not_strictly_below_2000 :
    (MarketOrders.simulate_place_market_order "BTCUSDT" "BUY" (PyFloat.finite 1) 9007199254740991 0 0).avgPrice = 2000 ∧
    ¬ ((MarketOrders.simulate_place_market_order "BTCUSDT" "BUY" (PyFloat.finite 1) 9007199254740991 0 0).avgPrice < 2000) := by
  have h : (MarketOrders.simulate_place_market_order "BTCUSDT" "BUY" (PyFloat.finite 1) 9007199254740991 0 0).avgPrice = 2000 := by
    decide
  exact ⟨h, by rw [h]; exact lt_irrefl 2000⟩

/-- C1 (amended): `avgPrice` is the two-decimal rounding of a sample
`1000 + r * 1000` with `r` uniform in `[0, 1)`, and lies in the closed
interval `[1000.00, 2000.00]`; the upper endpoint is attainable
because rounding can carry a sample above `1999.995` up to `2000.00`. -/
theorem C1_avgPrice_closed_range (symbol side : String) (quantity : PyFloat)
    (priceSeed idSeed now_ms : ℕ) :
    (MarketOrders.simulate_place_market_order symbol side quantity priceSeed idSeed now_ms).avgPrice
      = round2 (1000 + random_random priceSeed * 1000) ∧
    1000 ≤ (MarketOrders.simulate_place_market_order symbol side quantity priceSeed idSeed now_ms).avgPrice ∧
    (MarketOrders.simulate_place_market_order symbol side quantity priceSeed idSeed now_ms).avgPrice ≤ 2000 := by
  refine ⟨rfl, ?_⟩
  obtain ⟨h0, h1⟩ := random_random_mem priceSeed
  have hx1 : (1000 : ℚ) ≤ 1000 + random_random priceSeed * 1000 := by linarith
  have hx2 : 1000 + random_random priceSeed * 1000 < 2000 := by linarith
  exact round2_bounds hx1 hx2

/-- C3: each numeric validator fails exactly when the text does not
parse as a float or the parsed value compares `<= 0`, and otherwise
returns the parsed value: stated for `validate_quantity` and
`validate_price` of the limit script and `validate_quantity` of the
market script. -/
theorem C3_quantity_price_contract (s : String) :
    ((LimitOrders.validate_quantity s).isOk = false ↔
      floatOfString s = none ∨ ∃ q, floatOfString s = some q ∧ q.leZero = true) ∧
    (∀ q, floatOfString s = some q → q.leZero = false →
      LimitOrders.validate_quantity s = .ok q) ∧
    ((LimitOrders.validate_price s).isOk = false ↔
      floatOfString s = none ∨ ∃ p, floatOfString s = some p ∧ p.leZero = true) ∧
    (∀ p, floatOfString s = some p → p.leZero = false →
      LimitOrders.validate_price s = .ok p) ∧
    ((MarketOrders.validate_quantity s).isOk = false ↔
      floatOfString s = none ∨ ∃ q, floatOfString s = some q ∧ q.leZero = true) ∧
    (∀ q, floatOfString s = some q → q.leZero = false →
      MarketOrders.validate_quantity s = .ok q) := by
  unfold LimitOrders.validate_quantity LimitOrders.validate_price MarketOrders.validate_quantity
  cases hfs : floatOfString s with
  | none => simp [Except.isOk, Except.toBool]
  | some q =>
    by_cases hz : q.leZero = true
    · simp [hz, Except.isOk, Except.toBool]
    · simp [hz, Except.isOk, Except.toBool]

theorem C3_quantity_price_contract_witness :
    LimitOrders.validate_quantity "2.5" = .ok (PyFloat.finite (5 / 2)) :=
  (C3_quantity_price_contract "2.5").2.1 (PyFloat.finite (5 / 2)) (by decide) (by decide)

/-- C2: whenever validation fails — wrong number of positional
arguments, rejected quantity or price, a normalized side outside
`{BUY, SELL}`, or a rejected symbol — `main` of either script stops at
`parser.error` (non-zero exit, nothing printed, the simulator never
invoked, modelled by `MainResult.usageError`); in particular any side
whose stripped, uppercased form is not `BUY` or `SELL` forces that
outcome. -/
theorem C2_validation_failure_usage_error :
    (∀ args priceSeed idSeed now_ms, ¬ MarketOrders.argsOk args →
      MarketOrders.main args priceSeed idSeed now_ms = .usageError) ∧
    (∀ args idSeed now_ms, ¬ LimitOrders.argsOk args →
      LimitOrders.main args idSeed now_ms = .usageError) ∧
    (∀ symbol_arg side_arg quantity_arg priceSeed idSeed now_ms,
      pyUpper (pyStrip side_arg) ∉ VALID_SIDES →
      MarketOrders.main [symbol_arg, side_arg, quantity_arg] priceSeed idSeed now_ms = .usageError) ∧
    (∀ symbol_arg side_arg quantity_arg price_arg idSeed now_ms,
      pyUpper (pyStrip side_arg) ∉ VALID_SIDES →
      LimitOrders.main [symbol_arg, side_arg, quantity_arg, price_arg] idSeed now_ms = .usageError) := by
  refine ⟨?_, ?_, ?_, ?_⟩
  · intro args ps is t hno
    rcases args with - | ⟨a, - | ⟨b, - | ⟨c, - | ⟨d, rest⟩⟩⟩⟩
    · rfl
    · rfl
    · rfl
    · simp only [MarketOrders.main]
      cases hq : MarketOrders.validate_quantity c with
      | error e => rfl
      | ok q =>
        by_cases hside : pyUpper (pyStrip b) ∈ VALID_SIDES
        · by_cases hsym : MarketOrders.validate_symbol (pyUpper (pyStrip a)) = true
          · exact absurd ⟨a, b, c, rfl, by simp [hq, Except.isOk, Except.toBool], hside, hsym⟩ hno
          · simp [hside, hsym, Bool.not_eq_true]
        · simp [hside]
    · rfl
  · intro args is t hno
    rcases args with - | ⟨a, - | ⟨b, - | ⟨c, - | ⟨d, - | ⟨e, rest⟩⟩⟩⟩⟩
    · rfl
    · rfl
    · rfl
    · rfl
    · simp only [LimitOrders.main]
      cases hq : LimitOrders.validate_quantity c with
      | error msg => rfl
      | ok q =>
        cases hp : LimitOrders.validate_price d with
        | error msg => rfl
        | ok p =>
          by_cases hside : pyUpper (pyStrip b) ∈ VALID_SIDES
          · by_cases hsym : LimitOrders.validate_symbol (pyUpper (pyStrip a)) = true
            · exact absurd ⟨a, b, c, d, rfl,
                by simp [hq, Except.isOk, Except.toBool],
                by simp [hp, Except.isOk, Except.toBool], hside, hsym⟩ hno
            · simp [hside, hsym, Bool.not_eq_true]
          · simp [hside]
    · rfl
  · intro a b c ps is t hside
    simp only [MarketOrders.main]
    cases hq : MarketOrders.validate_quantity c with
    | error e => rfl
    | ok q => simp [hside]
  · intro a b c d is t hside
    simp only [LimitOrders.main]
    cases hq : LimitOrders.validate_quantity c with
    | error msg => rfl
    | ok q =>
      cases hp : LimitOrders.validate_price d with
      | error msg => rfl
      | ok p => simp [hside]

theorem C2_validation_failure_usage_error_witness :
    MarketOrders.main ["BTCUSDT", "HOLD", "1"] 0 0 0 = .usageError :=
  C2_validation_failure_usage_error.2.2.1 "BTCUSDT" "HOLD" "1" 0 0 0 (by decide)

/-- C8: record construction cannot fail on validated inputs — `main`
always reaches the printed summary there — and the defensive
`try/except` around construction maps any exception to
`sys.exit(1)` with no summary printed (`MainResult.internalError`). -/
theorem C8_construction_total_and_guarded :
    (∀ args priceSeed idSeed now_ms, MarketOrders.argsOk args →
      ∃ record, MarketOrders.main args priceSeed idSeed now_ms = .summary record) ∧
    (∀ args idSeed now_ms, LimitOrders.argsOk args →
      ∃ record, LimitOrders.main args idSeed now_ms = .summary record) ∧
    (∀ msg : String,
      tryReport (Except.error msg : Except String MarketOrders.MarketOrderRecord) = .internalError) ∧
    (∀ msg : String,
      tryReport (Except.error msg : Except String LimitOrders.LimitOrderRecord) = .internalError) := by
  refine ⟨?_, ?_, fun msg => rfl, fun msg => rfl⟩
  · intro args ps is t hok
    obtain ⟨a, b, c, rfl, hq, hside, hsym⟩ := hok
    obtain ⟨q, hq'⟩ := (except_isOk_iff _).1 hq
    refine ⟨MarketOrders.simulate_place_market_order (pyUpper (pyStrip a)) (pyUpper (pyStrip b)) q ps is t, ?_⟩
    simp [MarketOrders.main, hq', hside, hsym, tryReport]
  · intro args is t hok
    obtain ⟨a, b, c, d, rfl, hq, hp, hside, hsym⟩ := hok
    obtain ⟨q, hq'⟩ := (except_isOk_iff _).1 hq
    obtain ⟨p, hp'⟩ := (except_isOk_iff _).1 hp
    refine ⟨LimitOrders.simulate_place_limit_order (pyUpper (pyStrip a)) (pyUpper (pyStrip b)) q p is t, ?_⟩
    simp [LimitOrders.main, hq', hp', hside, hsym, tryReport]

theorem C8_construction_total_and_guarded_witness :
    ∃ record, MarketOrders.main ["BTCUSDT", "BUY", "0.01"] 0 0 0 = .summary record :=
  C8_construction_total_and_guarded.1 ["BTCUSDT", "BUY", "0.01"] 0 0 0
    ⟨"BTCUSDT", "BUY", "0.01", rfl, by decide, by decide, by decide⟩

end Verification
